import Mathlib

/-!
Shallow embedding of `testinfra/modules/blockdevice.py` (class `BlockDevice`
and its Linux implementation `LinuxBlockDevice`).

Python strings are Lean `String`s, Python ints are Lean `Int`/`Nat`,
Python `None`/unbound locals are `Option`, and Python exceptions are the
`FetchError` error type of `Except`.
-/

set_option autoImplicit false

namespace BlockDev

/-- Model of Python `str.splitlines` restricted to `\n` separators (the only
separator occurring in the modelled command output): split on every newline,
with no empty trailing line for a trailing newline.  Accumulator-based so the
kernel can reduce it. -/
def splitLinesAcc : List Char → List Char → List (List Char)
  | acc, [] => if acc.isEmpty then [] else [acc.reverse]
  | acc, c :: cs =>
    if c = '\n' then acc.reverse :: splitLinesAcc [] cs
    else splitLinesAcc (c :: acc) cs

/-- Python `s.splitlines()` (newline-only model). -/
def pySplitlines (s : String) : List String :=
  (splitLinesAcc [] s.data).map String.mk

/-- Accumulator for Python `str.split()` with no argument: split on runs of
whitespace, producing no empty fields. -/
def splitWsAcc : List Char → List Char → List (List Char)
  | acc, [] => if acc.isEmpty then [] else [acc.reverse]
  | acc, c :: cs =>
    if c.isWhitespace then
      if acc.isEmpty then splitWsAcc [] cs else acc.reverse :: splitWsAcc [] cs
    else splitWsAcc (c :: acc) cs

/-- Python `s.split()` (no-argument form). -/
def pySplit (s : String) : List String :=
  (splitWsAcc [] s.data).map String.mk

/-- Decimal value of a digit string. -/
def digitsToNat (ds : List Char) : Nat :=
  ds.foldl (fun n c => 10 * n + (c.toNat - 48)) 0

/-- Model of Python `int(s)` on a decimal string: optional surrounding
whitespace, optional sign, then at least one digit; anything else raises
`ValueError`, modelled as `none`. -/
def pyInt (s : String) : Option Int :=
  let cs := ((s.data.dropWhile Char.isWhitespace).reverse.dropWhile Char.isWhitespace).reverse
  match cs with
  | '-' :: ds =>
    if !ds.isEmpty && ds.all Char.isDigit then some (-(digitsToNat ds : Int)) else none
  | '+' :: ds =>
    if !ds.isEmpty && ds.all Char.isDigit then some (digitsToNat ds : Int) else none
  | ds =>
    if !ds.isEmpty && ds.all Char.isDigit then some (digitsToNat ds : Int) else none

/-- The match of the anchored regex `^(\d+)\.(\d+)\.` against a kernel release
string: a maximal leading digit run, a dot, a digit run, a dot.  `none` when
the regex does not match (in the source, `re.findall(...)[0]` then raises
`IndexError`). -/
def parseKernelRelease (s : String) : Option (Nat × Nat) :=
  let cs := s.data
  let d1 := cs.takeWhile Char.isDigit
  if d1.isEmpty then none
  else
    match cs.dropWhile Char.isDigit with
    | '.' :: rest =>
      let d2 := rest.takeWhile Char.isDigit
      if d2.isEmpty then none
      else
        match rest.dropWhile Char.isDigit with
        | '.' :: _ => some (digitsToNat d1, digitsToNat d2)
        | _ => none
    | _ => none

/-- `BlockDevice.kernel_version_ge` (blockdevice.py lines 145-153): parses the
host release string and returns
`int(major) >= major_wanted and int(minor) >= minor_wanted`.
`none` models the `IndexError` raised on a release string the regex does not
match. -/
def kernel_version_ge (kernel : String) (major_wanted minor_wanted : Nat) : Option Bool :=
  (parseKernelRelease kernel).map fun p =>
    decide (p.1 ≥ major_wanted) && decide (p.2 ≥ minor_wanted)

/-- The Python exceptions `LinuxBlockDevice._data` and the `BlockDevice`
properties can raise: `RuntimeError` (the explicit `raise RuntimeError(...)`
calls), `ValueError` (`int()` on a non-numeric field, and the explicit raise in
`is_writable`), `IndexError` (out-of-range list subscript, and
`re.findall(...)[0]` on a non-matching release string), `NameError`
(reference to a never-assigned local such as `zoned_max_open_zones`). -/
inductive FetchError where
  | runtimeError (msg : String)
  | valueError (msg : String)
  | indexError
  | nameError (var : String)
deriving DecidableEq

/-- Result of running the primary `blockdev --report` command. -/
structure CmdResult where
  rc : Int
  stdout : String
  stderr : String
deriving DecidableEq

/-- The host-dependent inputs of `LinuxBlockDevice._data`: the kernel release
string read by `kernel_version_ge`, and the outcome of each `check_output`
probe of a `/sys/block/<dev>/queue/...` attribute file (`some s` = the read
returned `s`; `none` = it raised the `AttributeError` the probe catches). -/
structure ProbeEnv where
  kernel : String
  zoned : Option String
  chunk_sectors : Option String
  nr_zones : Option String
  zone_append_max_bytes : Option String
  max_open_zones : Option String
  max_active_zones : Option String
deriving DecidableEq

/-- The dict returned by `LinuxBlockDevice._data`, one field per key, in the
source's order and with the source's exact key spellings (note
`zone_append_max_bytes`, `max_open_zones` and `max_actives_zones`: the source
does NOT spell them with a `zoned_` prefix, and writes `actives`). -/
structure BlockDeviceData where
  rw_mode : String
  read_ahead : Int
  sector_size : Int
  block_size : Int
  start_sector : Int
  size : Int
  zoned_type : String
  zoned_chunk_sectors : String
  zoned_nr_zones : String
  zone_append_max_bytes : String
  max_open_zones : String
  max_actives_zones : String
deriving DecidableEq

/-- A Python value stored in the `_data` dict: the source stores `str` and
`int` values. -/
inductive PyVal where
  | str (s : String)
  | int (z : Int)
deriving DecidableEq

/-- The `_data` dict as a key-value list, entries exactly as in the `return`
statement of `LinuxBlockDevice._data`. -/
def dataDict (d : BlockDeviceData) : List (String × PyVal) :=
  [ ("rw_mode", .str d.rw_mode)
  , ("read_ahead", .int d.read_ahead)
  , ("sector_size", .int d.sector_size)
  , ("block_size", .int d.block_size)
  , ("start_sector", .int d.start_sector)
  , ("size", .int d.size)
  , ("zoned_type", .str d.zoned_type)
  , ("zoned_chunk_sectors", .str d.zoned_chunk_sectors)
  , ("zoned_nr_zones", .str d.zoned_nr_zones)
  , ("zone_append_max_bytes", .str d.zone_append_max_bytes)
  , ("max_open_zones", .str d.max_open_zones)
  , ("max_actives_zones", .str d.max_actives_zones) ]

/-- Python `self._data[key]`: dict subscript, `KeyError` (carrying the key)
when absent. -/
def dictGet (d : BlockDeviceData) (key : String) : Except String PyVal :=
  match (dataDict d).lookup key with
  | some v => .ok v
  | none => .error key

/-- The local variables of the zoned-probing section of
`LinuxBlockDevice._data` after the probing code has run.
`zoned_max_open_zones` and `zoned_max_active_zones` have no initialiser in the
source, so they are `Option`: `none` = still unbound. -/
structure ZonedVars where
  ztype : String
  chunk : String
  nr : String
  appendBytes : String
  maxOpen : Option String
  maxActive : Option String
deriving DecidableEq

/-- The value of the local `zoned_type` after the first probe:
`check_output("cat /sys/block/<dev>/queue/zoned")`, with the caught
`AttributeError` replaced by `"none"`. -/
def zonedTypeRaw (env : ProbeEnv) : String :=
  match env.zoned with
  | some s => s
  | none => "none"

/-- The guard `if zoned_type:` in `LinuxBlockDevice._data`: Python string
truthiness, i.e. the secondary `/sys/block/<dev>/queue/*` probes are issued
exactly when `zoned_type` is a non-empty string. -/
def secondaryProbesIssued (env : ProbeEnv) : Bool :=
  zonedTypeRaw env != ""

/-- The zoned-probing section of `LinuxBlockDevice._data` (lines 179-217):
initialise `zoned_*` locals, probe the `zoned` attribute, and when `zoned_type`
is truthy run the remaining probes, the last three gated by
`kernel_version_ge`.  A `kernel_version_ge` call on a non-matching release
string raises `IndexError`. -/
def zonedProbe (env : ProbeEnv) : Except FetchError ZonedVars :=
  let zt := zonedTypeRaw env
  if zt = "" then
    .ok ⟨zt, "none", "none", "none", none, none⟩
  else
    let chunk := env.chunk_sectors.getD "none"
    match kernel_version_ge env.kernel 4 20 with
    | none => .error .indexError
    | some g420 =>
      let nr := if g420 then env.nr_zones.getD "none" else "none"
      match kernel_version_ge env.kernel 5 8 with
      | none => .error .indexError
      | some g58 =>
        let ap := if g58 then env.zone_append_max_bytes.getD "none" else "none"
        match kernel_version_ge env.kernel 5 9 with
        | none => .error .indexError
        | some g59 =>
          let mo := if g59 then env.max_open_zones else none
          let ma := if g59 then env.max_active_zones else none
          .ok ⟨zt, chunk, nr, ap, mo, ma⟩

/-- Python `fields[i]`: `IndexError` when out of range. -/
def getField (fields : List String) (i : Nat) : Except FetchError String :=
  match fields.get? i with
  | some s => .ok s
  | none => .error .indexError

/-- Python `int(fields[i])`: `IndexError` when out of range, `ValueError`
(carrying the offending string) when not numeric. -/
def getIntField (fields : List String) (i : Nat) : Except FetchError Int := do
  let s ← getField fields i
  match pyInt s with
  | some z => pure z
  | none => .error (.valueError s)

/-- Evaluation of the six `fields[...]`-based entries of the returned dict, in
dict order: `str(fields[0])`, then `int(fields[1])` … `int(fields[5])`. -/
def parseDataFields (fields : List String) :
    Except FetchError (String × Int × Int × Int × Int × Int) := do
  let f0 ← getField fields 0
  let ra ← getIntField fields 1
  let ssz ← getIntField fields 2
  let bsz ← getIntField fields 3
  let ss ← getIntField fields 4
  let sz ← getIntField fields 5
  pure (f0, ra, ssz, bsz, ss, sz)

/-- Reference to a local that may never have been assigned: `NameError`
(unbound local) when it was not. -/
def requireBound (v : Option String) (varName : String) : Except FetchError String :=
  match v with
  | some s => .ok s
  | none => .error (.nameError varName)

/-- The expected header tokens of `blockdev --report`. -/
def blockdevHeader : List String :=
  ["RO", "RA", "SSZ", "BSZ", "StartSec", "Size", "Device"]

/-- Everything `LinuxBlockDevice._data` does after the header check: zoned
probing, then construction of the returned dict (whose entries are evaluated
in order, so the `NameError` for an unbound `zoned_max_open_zones` /
`zoned_max_active_zones` fires after the `int()` conversions). -/
def lbdBody (fields : List String) (env : ProbeEnv) :
    Except FetchError BlockDeviceData := do
  let z ← zonedProbe env
  let (f0, ra, ssz, bsz, ss, sz) ← parseDataFields fields
  let mo ← requireBound z.maxOpen "zoned_max_open_zones"
  let ma ← requireBound z.maxActive "zoned_max_active_zones"
  pure ⟨f0, ra, ssz, bsz, ss, sz, z.ztype, z.chunk, z.nr, z.appendBytes, mo, ma⟩

/-- `LinuxBlockDevice._data` (lines 165-231): run `blockdev --report` on the
device, fail with `RuntimeError` on a non-zero exit status or any stderr, on
fewer than two output lines, or on a first line whose tokens differ from the
expected header; otherwise split the second line into fields and build the
snapshot dict after zoned probing. -/
def lbdData (device : String) (cmd : CmdResult) (env : ProbeEnv) :
    Except FetchError BlockDeviceData :=
  if cmd.rc ≠ 0 ∨ cmd.stderr ≠ "" then
    .error (.runtimeError ("Failed to gather data: " ++ cmd.stderr))
  else
    let output := pySplitlines cmd.stdout
    if output.length < 2 then
      .error (.runtimeError ("No data from " ++ device))
    else if pySplit (output.getD 0 "") ≠ blockdevHeader then
      .error (.runtimeError ("Unknown output of blockdev: " ++ output.getD 0 ""))
    else
      lbdBody (pySplit (output.getD 1 "")) env

namespace BlockDevice

/-- `BlockDevice.is_partition`: `self._data["start_sector"] > 0`. -/
def is_partition (d : BlockDeviceData) : Bool :=
  d.start_sector > 0

/-- `BlockDevice.size`: `self._data["size"]`. -/
def size (d : BlockDeviceData) : Int :=
  d.size

/-- `BlockDevice.sector_size`: `self._data["sector_size"]`. -/
def sector_size (d : BlockDeviceData) : Int :=
  d.sector_size

/-- `BlockDevice.block_size`: `self._data["block_size"]`. -/
def block_size (d : BlockDeviceData) : Int :=
  d.block_size

/-- `BlockDevice.start_sector` (lines 76-89): the source body is
`return self._data["sector_size"]`. -/
def start_sector (d : BlockDeviceData) : Int :=
  d.sector_size

/-- `BlockDevice.is_writable`: `"rw"` maps to `True`, `"ro"` to `False`, any
other mode raises `ValueError`. -/
def is_writable (d : BlockDeviceData) : Except FetchError Bool :=
  if d.rw_mode = "rw" then .ok true
  else if d.rw_mode = "ro" then .ok false
  else .error (.valueError ("Unexpected value for rw: " ++ d.rw_mode))

/-- `BlockDevice.ra`: `self._data["read_ahead"]`. -/
def ra (d : BlockDeviceData) : Int :=
  d.read_ahead

/-- `BlockDevice.zoned`: `"none" != self._data["zoned_type"]`. -/
def zoned (d : BlockDeviceData) : Bool :=
  "none" != d.zoned_type

/-- `BlockDevice.zoned_type`: `self._data["zoned_type"]`. -/
def zoned_type (d : BlockDeviceData) : String :=
  d.zoned_type

/-- `BlockDevice.get_zoned_param` (lines 135-143): for a recognised parameter
name, subscript the `_data` dict at key `"zoned_" + param_name` (a `KeyError`,
carried as `.error key`, when that key is absent from the dict); otherwise
return `None` (`.ok none`). -/
def get_zoned_param (d : BlockDeviceData) (param_name : String) :
    Except String (Option PyVal) :=
  if param_name ∈ ["type", "chunk_sectors", "nr_zones", "zone_append_max_bytes",
      "max_open_zones", "max_active_zones"] then
    (dictGet d ("zoned_" ++ param_name)).map some
  else
    .ok none

end BlockDevice

/-- A successful `blockdev --report` result with the documented header and the
documented `/dev/sda1` data line. -/
def sampleCmd : CmdResult :=
  ⟨0, "RO RA SSZ BSZ StartSec Size Device\nrw 256 512 4096 2048 512110190592 /dev/sda1\n", ""⟩

/-- A probe environment for a 5.15 host whose device is a host-managed zoned
device with every attribute readable. -/
def sampleEnv : ProbeEnv :=
  ⟨"5.15.0-52-generic", some "host-managed", some "524288", some "55880",
    some "1048576", some "128", some "128"⟩

/-- The snapshot `lbdData` produces from `sampleCmd` and `sampleEnv` (the
`nr_zones` probe is gated off because `kernel_version_ge 4 20` is `false` on a
5.15 kernel). -/
def sampleData : BlockDeviceData :=
  ⟨"rw", 256, 512, 4096, 2048, 512110190592, "host-managed", "524288", "none",
    "1048576", "128", "128"⟩

/-- Whether a `_data` outcome is the spec's Fetch-Failed error, i.e. one of the
explicit `raise RuntimeError(...)` calls of `LinuxBlockDevice._data`. -/
def isFetchFailed (r : Except FetchError BlockDeviceData) : Bool :=
  match r with
  | .error (.runtimeError _) => true
  | _ => false

/-- A probe environment identical to `sampleEnv` except that the
`max_open_zones` attribute read raises (is absent). -/
def envOpenFail : ProbeEnv :=
  ⟨"5.15.0-52-generic", some "host-managed", some "524288", some "55880",
    some "1048576", none, some "128"⟩

/-- A probe environment in which the per-device `zoned` attribute file itself
is unreadable, on a 5.15 host with all secondary attributes readable. -/
def envZonedAbsent : ProbeEnv :=
  ⟨"5.15.0-52-generic", none, some "524288", some "55880", some "1048576",
    some "128", some "128"⟩

/-- A snapshot with the documented `/dev/sda1` numbers and a chosen rw mode. -/
def mkSnapshot (mode : String) : BlockDeviceData :=
  ⟨mode, 256, 512, 4096, 2048, 512110190592, "none", "none", "none", "none",
    "none", "none"⟩

/-- Modelled from the spec: `testinfra.utils.cached_property` (imported by
blockdevice.py but not itself under src/) memoizes `_data` per handle.  A
handle holds the cached snapshot, if any, and a count of how many times the
command execution collaborator has been invoked to fetch it. -/
structure Handle where
  cache : Option BlockDeviceData
  fetchCount : Nat
deriving DecidableEq

/-- A handle on which no property has been read yet. -/
def freshHandle : Handle :=
  ⟨none, 0⟩

/-- Modelled from the spec: one property read through `cached_property`.  A
cached snapshot is returned as is; otherwise the fetcher runs once and its
result is stored. -/
def readData (fetch : Unit → BlockDeviceData) (h : Handle) :
    BlockDeviceData × Handle :=
  match h.cache with
  | some d => (d, h)
  | none => (fetch (), ⟨some (fetch ()), h.fetchCount + 1⟩)

/-- `n` successive property reads on a handle. -/
def readN (fetch : Unit → BlockDeviceData) (h : Handle) : Nat → Handle
  | 0 => h
  | n + 1 => readN fetch (readData fetch h).2 n

/-- A probe environment for an old (pre-4.20) kernel whose device is zoned and
has every attribute readable. -/
def envOldKernel : ProbeEnv :=
  ⟨"4.18.0-1-generic", some "host-managed", some "524288", some "55880",
    some "1048576", some "128", some "128"⟩

/-- The snapshot `lbdData` produces from `sampleCmd` and `envZonedAbsent`. -/
def zonedAbsentData : BlockDeviceData :=
  ⟨"rw", 256, 512, 4096, 2048, 512110190592, "none", "524288", "none",
    "1048576", "128", "128"⟩

end BlockDev

/-!  Helper lemmas about the error classes of the fetch, and inversion of a
successful fetch back to the parsed fields. -/

namespace BlockDev

/-- Binding two computations neither of which can produce a `RuntimeError`
cannot produce a `RuntimeError`. -/
lemma bind_no_rte {α β : Type} (x : Except FetchError α) (f : α → Except FetchError β)
    (hx : ∀ msg, x ≠ .error (.runtimeError msg))
    (hf : ∀ a msg, f a ≠ .error (.runtimeError msg)) :
    ∀ msg, x >>= f ≠ .error (.runtimeError msg) := by
  intro msg
  cases x with
  | error e => simpa [Bind.bind, Except.bind] using hx msg
  | ok a => simpa [Bind.bind, Except.bind] using hf a msg

/-- Zoned probing either returns its local variables or raises the
`IndexError` of a failed release-string parse. -/
lemma zonedProbe_cases (env : ProbeEnv) :
    (∃ z, zonedProbe env = .ok z) ∨ zonedProbe env = .error .indexError := by
  unfold zonedProbe
  by_cases h0 : zonedTypeRaw env = ""
  · rw [if_pos h0]
    exact Or.inl ⟨_, rfl⟩
  · rw [if_neg h0]
    cases h420 : kernel_version_ge env.kernel 4 20 with
    | none => exact Or.inr rfl
    | some g420 =>
      cases h58 : kernel_version_ge env.kernel 5 8 with
      | none => exact Or.inr rfl
      | some g58 =>
        cases h59 : kernel_version_ge env.kernel 5 9 with
        | none => exact Or.inr rfl
        | some g59 => exact Or.inl ⟨_, rfl⟩

/-- Zoned probing never raises a `RuntimeError`. -/
lemma zonedProbe_no_rte (env : ProbeEnv) :
    ∀ msg, zonedProbe env ≠ .error (.runtimeError msg) := by
  intro msg
  rcases zonedProbe_cases env with ⟨z, hz⟩ | hz <;> rw [hz] <;> simp

/-- A list subscript never raises a `RuntimeError`. -/
lemma getField_no_rte (fields : List String) (i : Nat) :
    ∀ msg, getField fields i ≠ .error (.runtimeError msg) := by
  intro msg
  unfold getField
  split <;> simp

/-- An `int(fields[i])` conversion never raises a `RuntimeError`. -/
lemma getIntField_no_rte (fields : List String) (i : Nat) :
    ∀ msg, getIntField fields i ≠ .error (.runtimeError msg) := by
  unfold getIntField
  refine bind_no_rte _ _ (getField_no_rte fields i) ?_
  intro a msg
  split <;> simp [pure, Except.pure]

/-- Parsing the data-line fields never raises a `RuntimeError`. -/
lemma parseDataFields_no_rte (fields : List String) :
    ∀ msg, parseDataFields fields ≠ .error (.runtimeError msg) := by
  unfold parseDataFields
  refine bind_no_rte _ _ (getField_no_rte fields 0) ?_
  intro f0
  refine bind_no_rte _ _ (getIntField_no_rte fields 1) ?_
  intro ra
  refine bind_no_rte _ _ (getIntField_no_rte fields 2) ?_
  intro ssz
  refine bind_no_rte _ _ (getIntField_no_rte fields 3) ?_
  intro bsz
  refine bind_no_rte _ _ (getIntField_no_rte fields 4) ?_
  intro ss
  refine bind_no_rte _ _ (getIntField_no_rte fields 5) ?_
  intro sz msg
  simp [pure, Except.pure]

/-- An unbound-local check never raises a `RuntimeError`. -/
lemma requireBound_no_rte (v : Option String) (s : String) :
    ∀ msg, requireBound v s ≠ .error (.runtimeError msg) := by
  intro msg
  unfold requireBound
  split <;> simp

/-- Nothing after the header check of `_data` raises a `RuntimeError`. -/
lemma lbdBody_no_rte (fields : List String) (env : ProbeEnv) :
    ∀ msg, lbdBody fields env ≠ .error (.runtimeError msg) := by
  unfold lbdBody
  refine bind_no_rte _ _ (zonedProbe_no_rte env) ?_
  intro z
  refine bind_no_rte _ _ (parseDataFields_no_rte fields) ?_
  rintro ⟨f0, ra, ssz, bsz, ss, sz⟩
  refine bind_no_rte _ _ (requireBound_no_rte _ _) ?_
  intro mo
  refine bind_no_rte _ _ (requireBound_no_rte _ _) ?_
  intro ma msg
  simp [pure, Except.pure]

/-- A result that cannot be a `RuntimeError` is not Fetch-Failed. -/
lemma isFetchFailed_eq_false {r : Except FetchError BlockDeviceData}
    (h : ∀ msg, r ≠ .error (.runtimeError msg)) : isFetchFailed r = false := by
  cases r with
  | ok d => rfl
  | error e =>
    cases e with
    | runtimeError m => exact absurd rfl (h m)
    | valueError m => rfl
    | indexError => rfl
    | nameError v => rfl

/-- A successful field parse determines every field access it performed. -/
lemma parseDataFields_ok {fields : List String} {f0 : String} {ra ssz bsz ss sz : Int}
    (h : parseDataFields fields = .ok (f0, ra, ssz, bsz, ss, sz)) :
    getField fields 0 = .ok f0 ∧ getIntField fields 1 = .ok ra ∧
    getIntField fields 2 = .ok ssz ∧ getIntField fields 3 = .ok bsz ∧
    getIntField fields 4 = .ok ss ∧ getIntField fields 5 = .ok sz := by
  unfold parseDataFields at h
  simp only [Bind.bind, Except.bind] at h
  cases h0 : getField fields 0 with
  | error e => rw [h0] at h; simp at h
  | ok a0 =>
  rw [h0] at h
  simp only at h
  cases h1 : getIntField fields 1 with
  | error e => rw [h1] at h; simp at h
  | ok a1 =>
  rw [h1] at h
  simp only at h
  cases h2 : getIntField fields 2 with
  | error e => rw [h2] at h; simp at h
  | ok a2 =>
  rw [h2] at h
  simp only at h
  cases h3 : getIntField fields 3 with
  | error e => rw [h3] at h; simp at h
  | ok a3 =>
  rw [h3] at h
  simp only at h
  cases h4 : getIntField fields 4 with
  | error e => rw [h4] at h; simp at h
  | ok a4 =>
  rw [h4] at h
  simp only at h
  cases h5 : getIntField fields 5 with
  | error e => rw [h5] at h; simp at h
  | ok a5 =>
  rw [h5] at h
  simp only [pure, Except.pure, Except.ok.injEq, Prod.mk.injEq] at h
  obtain ⟨e0, e1, e2, e3, e4, e5⟩ := h
  subst e0; subst e1; subst e2; subst e3; subst e4; subst e5
  exact ⟨rfl, rfl, rfl, rfl, rfl, rfl⟩

/-- Inverting a successful `lbdBody`: the probes succeeded and the parsed
fields are the snapshot's first six entries. -/
lemma lbdBody_ok {fields : List String} {env : ProbeEnv} {d : BlockDeviceData}
    (h : lbdBody fields env = .ok d) :
    ∃ z, zonedProbe env = .ok z ∧
      parseDataFields fields =
        .ok (d.rw_mode, d.read_ahead, d.sector_size, d.block_size, d.start_sector, d.size) ∧
      d.zoned_type = z.ztype := by
  unfold lbdBody at h
  simp only [Bind.bind, Except.bind] at h
  cases hz : zonedProbe env with
  | error e => rw [hz] at h; simp at h
  | ok z =>
  rw [hz] at h
  simp only at h
  cases hp : parseDataFields fields with
  | error e => rw [hp] at h; simp at h
  | ok t =>
  obtain ⟨f0, ra, ssz, bsz, ss, sz⟩ := t
  rw [hp] at h
  simp only at h
  cases hmo : z.maxOpen with
  | none => rw [hmo] at h; simp [requireBound] at h
  | some mo =>
  rw [hmo] at h
  simp only [requireBound] at h
  cases hma : z.maxActive with
  | none => rw [hma] at h; simp [requireBound] at h
  | some ma =>
  rw [hma] at h
  simp only [requireBound, pure, Except.pure, Except.ok.injEq] at h
  subst h
  exact ⟨z, rfl, rfl, rfl⟩

/-- Inverting a successful fetch: the first six snapshot fields are exactly
the parse of the report's data line. -/
lemma lbdData_ok_inv {device : String} {cmd : CmdResult} {env : ProbeEnv}
    {d : BlockDeviceData} (h : lbdData device cmd env = .ok d) :
    parseDataFields (pySplit ((pySplitlines cmd.stdout).getD 1 "")) =
      .ok (d.rw_mode, d.read_ahead, d.sector_size, d.block_size, d.start_sector, d.size) := by
  unfold lbdData at h
  by_cases h1 : cmd.rc ≠ 0 ∨ cmd.stderr ≠ ""
  · rw [if_pos h1] at h; simp at h
  · rw [if_neg h1] at h
    by_cases h2 : (pySplitlines cmd.stdout).length < 2
    · rw [if_pos h2] at h; simp at h
    · rw [if_neg h2] at h
      by_cases h3 : pySplit ((pySplitlines cmd.stdout).getD 0 "") ≠ blockdevHeader
      · rw [if_pos h3] at h; simp at h
      · rw [if_neg h3] at h
        obtain ⟨z, hz, hp, hzt⟩ := lbdBody_ok h
        exact hp

/-- After its first read a cached handle never changes. -/
lemma readN_cached (fetch : Unit → BlockDeviceData) (d : BlockDeviceData) (k : Nat) :
    ∀ n, readN fetch ⟨some d, k⟩ n = ⟨some d, k⟩ := by
  intro n
  induction n with
  | zero => rfl
  | succ m ih => exact ih

end BlockDev

/-!  The claims. -/

namespace BlockDev

/-- C1: the spec says `kernel_version_ge(major, minor)` is true iff the host
major exceeds the requested major, or they are equal and the host minor is at
least the requested minor.  The code instead requires BOTH `major >=` and
`minor >=`: on host release `6.2.0-26-generic`, `kernel_version_ge 5 15` is
`false` even though 6.2 is newer than 5.15.  The spec's two concrete examples
do hold, and a malformed release string does fail (`none`). -/
theorem kernel_version_ge_not_ge :
    kernel_version_ge "5.15.0-52-generic" 5 15 = some true ∧
    kernel_version_ge "4.18.0-1-generic" 5 15 = some false ∧
    kernel_version_ge "6.2.0-26-generic" 5 15 = some false ∧
    kernel_version_ge "generic" 5 15 = none := by
  refine ⟨by decide, by decide, by decide, by decide⟩

/-- C2: for the fetched snapshot of the documented report (StartSec column
2048, SSZ column 512), the `start_sector` accessor returns 512 — the
sector-size field — because the source body reads
`self._data["sector_size"]`, contradicting its own docstring and the spec. -/
theorem start_sector_returns_sector_size :
    lbdData "/dev/sda1" sampleCmd sampleEnv = .ok sampleData ∧
    sampleData.start_sector = 2048 ∧ sampleData.sector_size = 512 ∧
    BlockDevice.start_sector sampleData = 512 :=
  ⟨rfl, rfl, rfl, rfl⟩

/-- C3: `get_zoned_param` returns the matching snapshot field for `type`,
`chunk_sectors` and `nr_zones`, and an explicit no-value result for an
unrecognised name such as `bogus`; but for `zone_append_max_bytes`,
`max_open_zones` and `max_active_zones` it raises `KeyError`, because it looks
up `"zoned_" + name` while the dict stores those values under keys without the
`zoned_` prefix (and with the `max_actives_zones` typo). -/
theorem get_zoned_param_missing_keys (d : BlockDeviceData) :
    BlockDevice.get_zoned_param d "type" = .ok (some (.str d.zoned_type)) ∧
    BlockDevice.get_zoned_param d "chunk_sectors" = .ok (some (.str d.zoned_chunk_sectors)) ∧
    BlockDevice.get_zoned_param d "nr_zones" = .ok (some (.str d.zoned_nr_zones)) ∧
    BlockDevice.get_zoned_param d "zone_append_max_bytes" = .error "zoned_zone_append_max_bytes" ∧
    BlockDevice.get_zoned_param d "max_open_zones" = .error "zoned_max_open_zones" ∧
    BlockDevice.get_zoned_param d "max_active_zones" = .error "zoned_max_active_zones" ∧
    BlockDevice.get_zoned_param d "bogus" = .ok none :=
  ⟨rfl, rfl, rfl, rfl, rfl, rfl, rfl⟩

/-- C4: a failed `max_open_zones` probe (`envOpenFail`), or a pre-5.9 kernel
gating the probe off (`envOldKernel`), leaves the local
`zoned_max_open_zones` unbound, so building the returned dict raises
`NameError` and the whole fetch fails — not the claimed
default-and-continue. -/
theorem zoned_probe_failure_aborts_fetch :
    lbdData "/dev/sda1" sampleCmd envOpenFail = .error (.nameError "zoned_max_open_zones") ∧
    lbdData "/dev/sda1" sampleCmd envOldKernel = .error (.nameError "zoned_max_open_zones") :=
  ⟨rfl, rfl⟩

/-- C5: when the per-device zoned attribute file is unreadable, `zoned_type`
is set to `"none"` and `zoned` is false, and in general `zoned` is true iff
`zoned_type ≠ "none"`; but the secondary probes are NOT skipped: the guard
`if zoned_type:` tests Python truthiness and the non-empty string `"none"`
is truthy. -/
theorem zoned_file_absent_probes_still_issued :
    zonedTypeRaw envZonedAbsent = "none" ∧
    secondaryProbesIssued envZonedAbsent = true ∧
    lbdData "/dev/sda1" sampleCmd envZonedAbsent = .ok zonedAbsentData ∧
    BlockDevice.zoned zonedAbsentData = false ∧
    (∀ d : BlockDeviceData, BlockDevice.zoned d = true ↔ d.zoned_type ≠ "none") := by
  refine ⟨rfl, rfl, rfl, rfl, fun d => ?_⟩
  unfold BlockDevice.zoned
  rw [bne_iff_ne]
  exact ⟨fun h => fun hc => h hc.symm, fun h => fun hc => h hc.symm⟩

/-- C6: the fetch fails with a Fetch-Failed (`RuntimeError`) error exactly
when the primary command exits non-zero or writes to stderr (in which case
the error carries the stderr text and stdout is never parsed), or stdout has
fewer than two lines, or the first line's token sequence differs from
`RO RA SSZ BSZ StartSec Size Device` — regardless of the data line and probe
outcomes. -/
theorem fetch_failed_iff (device : String) (cmd : CmdResult) (env : ProbeEnv) :
    (isFetchFailed (lbdData device cmd env) = true ↔
      (cmd.rc ≠ 0 ∨ cmd.stderr ≠ "" ∨ (pySplitlines cmd.stdout).length < 2 ∨
        pySplit ((pySplitlines cmd.stdout).getD 0 "") ≠ blockdevHeader)) ∧
    (cmd.rc ≠ 0 ∨ cmd.stderr ≠ "" →
      lbdData device cmd env =
        .error (.runtimeError ("Failed to gather data: " ++ cmd.stderr))) := by
  constructor
  · unfold lbdData
    by_cases h1 : cmd.rc ≠ 0 ∨ cmd.stderr ≠ ""
    · rw [if_pos h1]
      refine ⟨fun hf => ?_, fun hr => rfl⟩
      rcases h1 with ha | hb
      · exact Or.inl ha
      · exact Or.inr (Or.inl hb)
    · rw [if_neg h1]
      by_cases h2 : (pySplitlines cmd.stdout).length < 2
      · rw [if_pos h2]
        exact ⟨fun hf => Or.inr (Or.inr (Or.inl h2)), fun hr => rfl⟩
      · rw [if_neg h2]
        by_cases h3 : pySplit ((pySplitlines cmd.stdout).getD 0 "") ≠ blockdevHeader
        · rw [if_pos h3]
          exact ⟨fun hf => Or.inr (Or.inr (Or.inr h3)), fun hr => rfl⟩
        · rw [if_neg h3]
          rw [isFetchFailed_eq_false
            (lbdBody_no_rte (pySplit ((pySplitlines cmd.stdout).getD 1 "")) env)]
          push_neg at h1
          refine ⟨fun hf => absurd hf (by simp), fun hr => ?_⟩
          rcases hr with ha | hb | hc | hd
          · exact (ha h1.1).elim
          · exact (hb h1.2).elim
          · exact (h2 hc).elim
          · exact (h3 hd).elim
  · intro h1
    unfold lbdData
    rw [if_pos h1]

/-- C6 witness: a run with exit status 1 and stderr `boom` fails with the
Fetch-Failed error carrying `boom`. -/
theorem fetch_failed_iff_witness :
    lbdData "/dev/sda1" ⟨1, "", "boom"⟩ sampleEnv =
      .error (.runtimeError ("Failed to gather data: " ++ "boom")) :=
  (fetch_failed_iff "/dev/sda1" ⟨1, "", "boom"⟩ sampleEnv).2 (Or.inl (by decide))

/-- C7: `is_writable` maps mode `"rw"` to true and `"ro"` to false, and any
other mode fails with a `ValueError` whose message names the unexpected
mode string. -/
theorem is_writable_modes (d : BlockDeviceData) :
    (d.rw_mode = "rw" → BlockDevice.is_writable d = .ok true) ∧
    (d.rw_mode = "ro" → BlockDevice.is_writable d = .ok false) ∧
    (d.rw_mode ≠ "rw" → d.rw_mode ≠ "ro" →
      BlockDevice.is_writable d =
        .error (.valueError ("Unexpected value for rw: " ++ d.rw_mode))) := by
  unfold BlockDevice.is_writable
  refine ⟨fun h => ?_, fun h => ?_, fun h1 h2 => ?_⟩
  · rw [if_pos h]
  · rw [if_neg (by simp [h]), if_pos h]
  · rw [if_neg h1, if_neg h2]

/-- C7 witness: the three cases at concrete snapshots with modes `rw`, `ro`
and `rx`. -/
theorem is_writable_modes_witness :
    BlockDevice.is_writable (mkSnapshot "rw") = .ok true ∧
    BlockDevice.is_writable (mkSnapshot "ro") = .ok false ∧
    BlockDevice.is_writable (mkSnapshot "rx") =
      .error (.valueError ("Unexpected value for rw: " ++ (mkSnapshot "rx").rw_mode)) :=
  ⟨(is_writable_modes (mkSnapshot "rw")).1 rfl,
   (is_writable_modes (mkSnapshot "ro")).2.1 rfl,
   (is_writable_modes (mkSnapshot "rx")).2.2 (by decide) (by decide)⟩

/-- C8: whenever the documented report (header
`RO RA SSZ BSZ StartSec Size Device`, data line
`rw 256 512 4096 2048 512110190592 /dev/sda1`) fetches successfully — for any
probe environment — the snapshot carries mode `rw`, read-ahead 256,
sector-size 512, block-size 4096, start-sector 2048, size 512110190592, and
on it `is_partition` and `is_writable` are true. -/
theorem sample_report_snapshot (env : ProbeEnv) (d : BlockDeviceData)
    (h : lbdData "/dev/sda1" sampleCmd env = .ok d) :
    d.rw_mode = "rw" ∧ d.read_ahead = 256 ∧ d.sector_size = 512 ∧ d.block_size = 4096 ∧
    d.start_sector = 2048 ∧ d.size = 512110190592 ∧
    BlockDevice.is_partition d = true ∧ BlockDevice.is_writable d = .ok true := by
  have hp := lbdData_ok_inv h
  have hc : parseDataFields (pySplit ((pySplitlines sampleCmd.stdout).getD 1 "")) =
      .ok ("rw", 256, 512, 4096, 2048, 512110190592) := rfl
  rw [hc] at hp
  simp only [Except.ok.injEq, Prod.mk.injEq] at hp
  obtain ⟨e0, e1, e2, e3, e4, e5⟩ := hp
  refine ⟨e0.symm, e1.symm, e2.symm, e3.symm, e4.symm, e5.symm, ?_, ?_⟩
  · unfold BlockDevice.is_partition
    rw [← e4]
    decide
  · unfold BlockDevice.is_writable
    rw [← e0]
    rfl

/-- C8 witness: the fetch with `sampleEnv` yields `sampleData`, which has the
documented field values. -/
theorem sample_report_snapshot_witness :
    sampleData.rw_mode = "rw" ∧ sampleData.read_ahead = 256 ∧
    sampleData.sector_size = 512 ∧ sampleData.block_size = 4096 ∧
    sampleData.start_sector = 2048 ∧ sampleData.size = 512110190592 ∧
    BlockDevice.is_partition sampleData = true ∧
    BlockDevice.is_writable sampleData = .ok true :=
  sample_report_snapshot sampleEnv sampleData rfl

/-- C9 (spec-modelled, `cached_property` is not under src/): on a fresh
handle, any number of property reads invokes the fetcher at most once, and
after the first read the handle holds the cached snapshot with exactly one
invocation recorded. -/
theorem data_fetched_at_most_once (fetch : Unit → BlockDeviceData) (n : Nat) :
    (readN fetch freshHandle n).fetchCount ≤ 1 ∧
    (1 ≤ n → readN fetch freshHandle n = ⟨some (fetch ()), 1⟩) := by
  cases n with
  | zero => exact ⟨Nat.zero_le 1, fun h => absurd h (by decide)⟩
  | succ m =>
    have hstep : readN fetch freshHandle (m + 1) = readN fetch ⟨some (fetch ()), 1⟩ m := rfl
    rw [hstep, readN_cached]
    exact ⟨le_refl 1, fun _ => rfl⟩

/-- C9 witness: three reads on a fresh handle leave one cached snapshot and
one fetch. -/
theorem data_fetched_at_most_once_witness :
    readN (fun _ => sampleData) freshHandle 3 = ⟨some sampleData, 1⟩ :=
  (data_fetched_at_most_once (fun _ => sampleData) 3).2 (by decide)

/-- C10: on every successfully fetched snapshot, `is_partition` is true iff
the integer parsed from the fifth whitespace-separated field of the data line
is positive (it reads the snapshot's `start_sector` field directly), and
there is a snapshot on which it differs from
`start_sector accessor value > 0` (the accessor returns the sector size). -/
theorem is_partition_uses_start_sector_field :
    (∀ device cmd env d, lbdData device cmd env = .ok d →
      (BlockDevice.is_partition d = true ↔
        ∃ z : Int, getIntField (pySplit ((pySplitlines cmd.stdout).getD 1 "")) 4 = .ok z ∧
          0 < z)) ∧
    (∃ d : BlockDeviceData,
      BlockDevice.is_partition d ≠ decide (0 < BlockDevice.start_sector d)) := by
  constructor
  · intro device cmd env d h
    obtain ⟨g0, g1, g2, g3, g4, g5⟩ := parseDataFields_ok (lbdData_ok_inv h)
    constructor
    · intro hip
      refine ⟨d.start_sector, g4, ?_⟩
      simpa [BlockDevice.is_partition] using hip
    · rintro ⟨z, hz, hzpos⟩
      have hdz : z = d.start_sector := by
        have := g4.symm.trans hz
        simpa using this.symm
      simp [BlockDevice.is_partition]
      exact hdz ▸ hzpos
  · refine ⟨⟨"rw", 256, 512, 4096, 0, 512110190592, "none", "none", "none", "none",
      "none", "none"⟩, ?_⟩
    decide

/-- C10 witness: the documented report's snapshot, whose fifth field is
2048. -/
theorem is_partition_uses_start_sector_field_witness :
    BlockDevice.is_partition sampleData = true ↔
      ∃ z : Int, getIntField (pySplit ((pySplitlines sampleCmd.stdout).getD 1 "")) 4 = .ok z ∧
        0 < z :=
  is_partition_uses_start_sector_field.1 "/dev/sda1" sampleCmd sampleEnv sampleData rfl

end BlockDev
